import Mathlib

/-!
Verification of the `transfer` CDC-to-warehouse pipeline against its
natural-language specification.

The development shallowly embeds the parts of the Go code the claims are
about.  Code that is present under the repository sources is translated
directly; code whose implementation is absent (only tests or callers are
available) is modelled from the specification text, as noted in the doc
comment of each such definition.
-/

namespace ArtieTransfer

/-! ## Typing kernel data model -/

/-- Sub-kind discriminator for the `ETime` extended-time kind
(`ext.DateKindType`, `ext.TimeKindType`, `ext.DateTimeKindType`). -/
inductive ExtTimeKindType
  | date
  | time
  | dateTime
deriving DecidableEq, Repr

/-- `typing.KindDetails`: tagged value describing a logical column type.
Variants per the data model: `Integer`, `Float`, `Boolean`, `String`,
`Struct`, `Array`, `ETime` with a sub-kind, `EDecimal` with optional
precision and a scale, and `Invalid`. -/
inductive KindDetails
  | Invalid
  | String
  | Boolean
  | Integer
  | Float
  | Array
  | Struct
  | ETime (t : ExtTimeKindType)
  | EDecimal (precision : Option Int) (scale : Int)
deriving DecidableEq, Repr

/-- Go `any` values as supplied to `ParseValue`, restricted to the closed
set of warehouse-relevant shapes: nil, string, bool, integer-typed
numeric, fractional numeric, array, mapping. -/
inductive GoValue
  | goNil
  | goStr (s : String)
  | goBool (b : Bool)
  | goInt (n : Int)
  | goFloat
  | goArray (elems : List GoValue)
  | goMap (entries : List (String × GoValue))

/-! ## Character-list string primitives

The Go code manipulates strings with `strings.Split`, `strings.Join`,
`strings.TrimSpace`, case mapping and quote doubling.  These are embedded
as structurally recursive functions over `List Char` so that every
definition evaluates by kernel reduction on concrete inputs. -/

/-- Go `unicode.IsSpace` restricted to the ASCII whitespace the pipeline
encounters. -/
def isSpaceChar (c : Char) : Bool :=
  c = ' ' || c = '\t' || c = '\n' || c = '\r' || c = '\x0b' || c = '\x0c'

/-- Go `strings.TrimSpace` over characters. -/
def trimChars (cs : List Char) : List Char :=
  ((cs.dropWhile isSpaceChar).reverse.dropWhile isSpaceChar).reverse

/-- Go `strings.Split` on a one-character separator: always returns at
least one (possibly empty) component. -/
def splitOnChar (sep : Char) : List Char → List (List Char)
  | [] => [[]]
  | c :: rest =>
    if c = sep then
      [] :: splitOnChar sep rest
    else
      match splitOnChar sep rest with
      | acc :: accs => (c :: acc) :: accs
      | [] => [[c]]

/-- Go `strings.Join` with a one-character separator. -/
def joinWithChar (sep : Char) : List (List Char) → List Char
  | [] => []
  | [x] => x
  | x :: xs => x ++ sep :: joinWithChar sep xs

/-- Join strings with a separator string (`strings.Join`). -/
def joinSep (sep : String) : List String → String
  | [] => ""
  | [x] => x
  | x :: xs => x ++ sep ++ joinSep sep xs

/-- ASCII lower-casing of one character. -/
def charToLower (c : Char) : Char :=
  if 'A' ≤ c && c ≤ 'Z' then Char.ofNat (c.toNat + 32) else c

/-- ASCII upper-casing of one character. -/
def charToUpper (c : Char) : Char :=
  if 'a' ≤ c && c ≤ 'z' then Char.ofNat (c.toNat - 32) else c

/-- ASCII lower-casing of a string (`strings.ToLower`). -/
def toLowerStr (s : String) : String := String.mk (s.toList.map charToLower)

/-- ASCII upper-casing of a string (`strings.ToUpper`). -/
def toUpperStr (s : String) : String := String.mk (s.toList.map charToUpper)

/-- The single-quote character. -/
def singleQuoteChar : Char := Char.ofNat 39

/-! ## BigQuery `tableRelName` (from `src/clients/bigquery/bigquery.go`) -/

/-- `tableRelName` from `clients/bigquery/bigquery.go`: splits the fully
qualified name on `.`; errors when there are fewer than three components,
otherwise rejoins everything from the third component on. -/
def tableRelName (fqName : String) : Except String String :=
  let fqNameParts := splitOnChar '.' fqName.toList
  if fqNameParts.length < 3 then
    Except.error ("invalid fully qualified name: " ++ fqName)
  else
    Except.ok (String.mk (joinWithChar '.' (fqNameParts.drop 2)))

/-! ## Configuration (from `src/lib/config/config.go`) -/

/-- Constant from `lib/config/config.go`. -/
def defaultFlushTimeSeconds : Int := 10

/-- Constant from `lib/config/config.go`: `25 * 1024`. -/
def defaultFlushSizeKb : Int := 25 * 1024

/-- Constant from `lib/config/config.go`. -/
def flushIntervalSecondsStart : Int := 5

/-- Constant from `lib/config/config.go`: `6 * 60 * 60`. -/
def flushIntervalSecondsEnd : Int := 6 * 60 * 60

/-- Constant from `lib/config/config.go`. -/
def bufferPoolSizeStart : Int := 5

/-- Constant from `lib/config/config.go`. -/
def bufferPoolSizeEnd : Nat := 30000

/-- Modelled from the spec: `kafkalib.TopicConfig` is absent from the
sources; its validity predicate (`TopicConfig.Valid`) is abstracted as a
boolean field, which is all `Config.Validate` inspects. -/
structure TopicConfig where
  valid : Bool
deriving DecidableEq, Repr

/-- The `Kafka` configuration block (fields inspected by `Validate`). -/
structure KafkaCfg where
  bootstrapServer : String
  groupID : String
  username : String
  password : String
  topicConfigs : List TopicConfig
deriving DecidableEq, Repr

/-- The `Pubsub` configuration block (fields inspected by `Validate`). -/
structure PubsubCfg where
  projectID : String
  topicConfigs : List TopicConfig
  pathToCredentials : String
deriving DecidableEq, Repr

/-- The `Redshift` configuration block (fields inspected by
`ValidateRedshift`). -/
structure RedshiftCfg where
  host : String
  port : Int
  database : String
  username : String
  password : String
  bucket : String
  credentialsClause : String
deriving DecidableEq, Repr

/-- Modelled from the spec: `constants.QueueKind` / `constants.DestinationKind`
are Go string types whose constants live in `lib/config/constants`, absent
from the sources.  Queue kinds are `"kafka"` and `"pubsub"`; destination
kinds are `outputSource ∈ \x7bsnowflake, bigquery, redshift, s3, test\x7d`. -/
def queueKafka : String := "kafka"

/-- The Pub/Sub queue kind string constant. -/
def queuePubSub : String := "pubsub"

/-- Modelled from the spec: `constants.IsValidDestination`, absent from the
sources; the valid output destinations per the external-interface section. -/
def validDestinations : List String := ["snowflake", "bigquery", "redshift", "s3", "test"]

/-- Whether a destination string is one of the valid output destinations. -/
def IsValidDestination (d : String) : Bool := validDestinations.contains d

/-- Modelled from the spec: `numbers.BetweenEq`, absent from the sources;
a closed-range check (`flushIntervalSeconds (5–21600)`). -/
def BetweenEq (lo hi x : Int) : Bool := lo ≤ x && x ≤ hi

/-- Modelled from the spec: `stringutil.Empty` / `array.Empty`, absent from
the sources; true when any of the given strings is empty. -/
def anyEmpty (xs : List String) : Bool := xs.any (fun s => s = "")

/-- Go's conversion `int(u)` of a 64-bit unsigned integer to a 64-bit
signed integer: the value is reduced modulo `2 ^ 64` and reinterpreted in
two's complement, so values of `2 ^ 63` and above wrap negative. -/
def uint64ToInt (n : Nat) : Int :=
  let m : Nat := n % 2 ^ 64
  if m < 2 ^ 63 then (m : Int) else (m : Int) - 2 ^ 64

/-- `config.Config`: the fields read by `Validate` and by the
default-filling logic of `readFileToConfig`.  `bufferRows` models the Go
field `BufferRows uint` (64-bit); the wrapping signed reinterpretation Go
performs at the `int(c.BufferRows)` comparison is applied explicitly by
`uint64ToInt` where `Validate` reads it. -/
structure Config where
  output : String
  queue : String
  flushIntervalSeconds : Int
  flushSizeKb : Int
  bufferRows : Nat
  pubsub : Option PubsubCfg := none
  kafka : Option KafkaCfg := none
  redshift : Option RedshiftCfg := none
deriving DecidableEq, Repr

/-- The field checks of `Config.ValidateRedshift` on a present Redshift
block: no setting may be empty and the port must be positive. -/
def redshiftChecks (r : RedshiftCfg) : Option String :=
  if anyEmpty [r.host, r.database, r.username, r.password, r.bucket, r.credentialsClause] then
    some "one of redshift settings is empty"
  else if r.port ≤ 0 then
    some "redshift invalid port"
  else
    none

/-- `Config.ValidateRedshift` from `lib/config/config.go`. -/
def Config.ValidateRedshift (c : Config) : Option String :=
  if c.output ≠ "redshift" then
    some ("output is not redshift, output: " ++ c.output)
  else
    match c.redshift with
    | none => some "redshift cfg is nil"
    | some r => redshiftChecks r

/-- The checks on a present Kafka block: a non-empty topic-config list,
every topic config valid, and non-empty group id and bootstrap server. -/
def kafkaChecks (k : KafkaCfg) : Option String :=
  if k.topicConfigs.length = 0 then
    some "config is invalid, no kafka topic configs"
  else if k.topicConfigs.any (fun tc => !tc.valid) then
    some "config is invalid, topic config is invalid"
  else if anyEmpty [k.groupID, k.bootstrapServer] then
    some "config is invalid, kafka settings is invalid"
  else
    none

/-- The checks on a present Pub/Sub block: a non-empty topic-config list,
every topic config valid, and non-empty project id and credentials path. -/
def pubsubChecks (p : PubsubCfg) : Option String :=
  if p.topicConfigs.length = 0 then
    some "config is invalid, no pubsub topic configs"
  else if p.topicConfigs.any (fun tc => !tc.valid) then
    some "config is invalid, topic config is invalid"
  else if anyEmpty [p.projectID, p.pathToCredentials] then
    some "config is invalid, pubsub settings is invalid"
  else
    none

/-- The queue checks at the end of `Config.Validate`: a Kafka queue needs
a non-nil Kafka block passing `kafkaChecks`, a Pub/Sub queue a non-nil
Pub/Sub block passing `pubsubChecks`; any other queue value is not
checked. -/
def Config.validateQueue (c : Config) : Option String :=
  if c.queue = queueKafka then
    match c.kafka with
    | none => some "config is invalid, no kafka topic configs"
    | some k => kafkaChecks k
  else if c.queue = queuePubSub then
    match c.pubsub with
    | none => some "config is invalid, no pubsub topic configs"
    | some p => pubsubChecks p
  else
    none

/-- `Config.Validate` from `lib/config/config.go`: sequential early-return
checks on flush size, flush interval, buffer rows (lower bound only, read
through Go's wrapping `int(c.BufferRows)` conversion), output destination,
the Redshift block when the output is Redshift, and the queue blocks. -/
def Config.Validate (c : Config) : Option String :=
  if c.flushSizeKb ≤ 0 then
    some "config is invalid, flush size pool has to be a positive number"
  else if !(BetweenEq flushIntervalSecondsStart flushIntervalSecondsEnd c.flushIntervalSeconds) then
    some "config is invalid, flush interval is outside of our range"
  else if bufferPoolSizeStart > uint64ToInt c.bufferRows then
    some "config is invalid, buffer pool is too small"
  else if !(IsValidDestination c.output) then
    some "config is invalid, output is invalid"
  else if c.output = "redshift" then
    match c.ValidateRedshift with
    | some e => some e
    | none => c.validateQueue
  else
    c.validateQueue

/-- The default-filling logic of `readFileToConfig` from
`lib/config/config.go` (the part after the YAML unmarshal): an empty queue
defaults to Kafka, a zero flush interval to `defaultFlushTimeSeconds`,
zero buffer rows to `bufferPoolSizeEnd`, and a zero flush size to
`defaultFlushSizeKb`. -/
def readFileToConfigDefaults (c : Config) : Config :=
  let c := if c.queue = "" then { c with queue := queueKafka } else c
  let c := if c.flushIntervalSeconds = 0 then { c with flushIntervalSeconds := defaultFlushTimeSeconds } else c
  let c := if c.bufferRows = 0 then { c with bufferRows := bufferPoolSizeEnd } else c
  if c.flushSizeKb = 0 then { c with flushSizeKb := defaultFlushSizeKb } else c

/-! ## Timestamp layout matching

Modelled from the spec: the implementation of `lib/typing/ext`
(`ParseExtendedDateTime` and the supported layout lists) is absent from
the sources.  The model implements matching of a value string against a
Go reference-time layout, for exactly the layouts the spec lists:
the Go reference-time formats (`Layout`, `ANSIC`, `UnixDate`, `RubyDate`,
`RFC822`, `RFC822Z`, `RFC850`, `RFC1123`, `RFC1123Z`, `RFC3339` with
fractional seconds), the ISO-8601 date, and the ISO-8601 time with an
optional numeric zone.  As in Go, fractional seconds after the seconds
component are accepted even when the layout does not spell them out. -/

/-- Consume exactly `n` decimal digits. -/
def fixedDigits : Nat → List Char → Option (List Char)
  | 0, v => some v
  | _ + 1, [] => none
  | n + 1, c :: rest => if c.isDigit then fixedDigits n rest else none

/-- Consume one digit, or two when a second digit follows. -/
def oneOrTwoDigits : List Char → Option (List Char)
  | [] => none
  | c :: rest =>
    if c.isDigit then
      match rest with
      | d :: rest2 => if d.isDigit then some rest2 else some rest
      | [] => some []
    else none

/-- Drop a leading run of decimal digits. -/
def skipDigits : List Char → List Char
  | c :: rest => if c.isDigit then skipDigits rest else c :: rest
  | [] => []

/-- Go's treatment of fractional seconds: after the seconds component, a
`.` or `,` followed by digits is consumed even when absent from the
layout. -/
def consumeFraction (v : List Char) : List Char :=
  match v with
  | c :: d :: rest =>
    if (c = '.' || c = ',') && d.isDigit then skipDigits (d :: rest) else v
  | _ => v

/-- Consume a sign followed by exactly `n` digits (numeric zone without a
colon, layout tokens `-0700` and `-07`). -/
def matchNumericZone (n : Nat) : List Char → Option (List Char)
  | c :: rest => if c = '+' || c = '-' then fixedDigits n rest else none
  | [] => none

/-- Consume `Z` or a sign followed by `hh:mm` (layout token `Z07:00`). -/
def matchColonZone : List Char → Option (List Char)
  | 'Z' :: rest => some rest
  | c :: rest =>
    if c = '+' || c = '-' then
      match fixedDigits 2 rest with
      | some (':' :: rest2) => fixedDigits 2 rest2
      | _ => none
    else none
  | [] => none

/-- Consume an abbreviated zone name: a run of at least two upper-case
letters (layout token `MST`). -/
def matchZoneName (v : List Char) : Option (List Char) :=
  let count := (v.takeWhile (fun c => c.isUpper)).length
  if 2 ≤ count then some (v.drop count) else none

/-- If `w` is a prefix of `v`, drop it. -/
def dropExact (w : String) (v : List Char) : Option (List Char) :=
  let cs := w.toList
  if cs.isPrefixOf v then some (v.drop cs.length) else none

/-- Consume the first of the given words that prefixes the value. -/
def matchAnyName : List String → List Char → Option (List Char)
  | [], _ => none
  | w :: ws, v =>
    match dropExact w v with
    | some r => some r
    | none => matchAnyName ws v

/-- Abbreviated weekday names (layout token `Mon`). -/
def dayAbbrevs : List String := ["Mon", "Tue", "Wed", "Thu", "Fri", "Sat", "Sun"]

/-- Full weekday names (layout token `Monday`). -/
def dayFullNames : List String :=
  ["Monday", "Tuesday", "Wednesday", "Thursday", "Friday", "Saturday", "Sunday"]

/-- Abbreviated month names (layout token `Jan`). -/
def monthAbbrevs : List String :=
  ["Jan", "Feb", "Mar", "Apr", "May", "Jun", "Jul", "Aug", "Sep", "Oct", "Nov", "Dec"]

/-- Consume a space-padded day (layout token `_2`): an optional leading
space then one or two digits. -/
def matchUnderscoreDay : List Char → Option (List Char)
  | ' ' :: rest => oneOrTwoDigits rest
  | v => oneOrTwoDigits v

/-- Consume a meridiem marker (layout token `PM`). -/
def matchMeridiem : List Char → Option (List Char)
  | 'P' :: 'M' :: rest => some rest
  | 'A' :: 'M' :: rest => some rest
  | _ => none

/-- Walk the layout and the value in lock step, consuming one layout token
per step.  Longer tokens are recognised before shorter ones; a layout
character that starts no token is a literal.  The fuel argument bounds the
number of steps; every step consumes at least one layout character. -/
def matchLayoutAux : Nat → List Char → List Char → Bool
  | 0, _, _ => false
  | _ + 1, [], v => v.isEmpty
  | fuel + 1, l, v =>
    let step (tok : String) (consume : List Char → Option (List Char)) (next : Option Bool) : Option Bool :=
      match dropExact tok l with
      | some lrest =>
        some (match consume v with
              | some vrest => matchLayoutAux fuel lrest vrest
              | none => false)
      | none => next
    let viaTokens : Option Bool :=
      step "2006" (fixedDigits 4) <|
      step "Monday" (matchAnyName dayFullNames) <|
      step "Mon" (matchAnyName dayAbbrevs) <|
      step "Jan" (matchAnyName monthAbbrevs) <|
      step "PM" matchMeridiem <|
      step "MST" matchZoneName <|
      step "Z07:00" matchColonZone <|
      step "-0700" (matchNumericZone 4) <|
      step "-07" (matchNumericZone 2) <|
      step "15" (fixedDigits 2) <|
      step "01" (fixedDigits 2) <|
      step "02" (fixedDigits 2) <|
      step "03" (fixedDigits 2) <|
      step "04" (fixedDigits 2) <|
      step "05" (fun v => (fixedDigits 2 v).map consumeFraction) <|
      step "06" (fixedDigits 2) <|
      step "_2" matchUnderscoreDay <|
      none
    match viaTokens with
    | some b => b
    | none =>
      match l, v with
      | lc :: lrest, vc :: vrest => if lc = vc then matchLayoutAux fuel lrest vrest else false
      | _, _ => false

/-- Whether the value matches the Go reference-time layout.  The fuel is
one more than the layout length, which suffices because every matching
step consumes at least one layout character. -/
def matchesLayout (layout value : String) : Bool :=
  matchLayoutAux (layout.length + 1) layout.toList value.toList

/-- Modelled from the spec: the supported date-time layouts — the Go
reference-time formats, in the order the Go time package declares them. -/
def supportedDateTimeLayouts : List String :=
  ["01/02 03:04:05PM '06 -0700",
   "Mon Jan _2 15:04:05 2006",
   "Mon Jan _2 15:04:05 MST 2006",
   "Mon Jan 02 15:04:05 -0700 2006",
   "02 Jan 06 15:04 MST",
   "02 Jan 06 15:04 -0700",
   "Monday, 02-Jan-06 15:04:05 MST",
   "Mon, 02 Jan 2006 15:04:05 MST",
   "Mon, 02 Jan 2006 15:04:05 -0700",
   "2006-01-02T15:04:05Z07:00"]

/-- Modelled from the spec: the ISO-8601 date layout. -/
def supportedDateFormats : List String := ["2006-01-02"]

/-- Modelled from the spec: the ISO-8601 time layout with an optional
numeric zone (fractional seconds are handled by the matcher itself). -/
def supportedTimeFormats : List String := ["15:04:05-07", "15:04:05"]

/-- Whether the value matches any of the given layouts. -/
def matchesAnyLayout (layouts : List String) (value : String) : Bool :=
  layouts.any (fun l => matchesLayout l value)

/-! ## JSON detection

Modelled from the spec: the implementation of `typing.IsJSON` is absent
from the sources.  Per the spec, after trimming whitespace the value must
begin with `\x7b` and end with `\x7d` or begin with `[` and end with `]`,
and be a well-formed JSON document.  Well-formedness follows the JSON
grammar (`json.Unmarshal` into a raw message in Go): a single JSON value
spanning the whole trimmed input. -/

/-- JSON insignificant whitespace. -/
def isJsonWs (c : Char) : Bool := c = ' ' || c = '\t' || c = '\n' || c = '\r'

/-- Hexadecimal digit. -/
def isHexDigitChar (c : Char) : Bool :=
  c.isDigit || ('a' ≤ c && c ≤ 'f') || ('A' ≤ c && c ≤ 'F')

/-- Drop leading JSON whitespace. -/
def skipWs : List Char → List Char
  | c :: rest => if isJsonWs c then skipWs rest else c :: rest
  | [] => []

/-- Consume the remainder of a JSON string, the opening quote already
consumed: ordinary characters, two-character escapes, and `\u` escapes
with four hex digits. -/
def jsonStringRest : List Char → Option (List Char)
  | [] => none
  | '"' :: rest => some rest
  | '\\' :: e :: rest =>
    if e = '"' || e = '\\' || e = '/' || e = 'b' || e = 'f' || e = 'n' || e = 'r' || e = 't' then
      jsonStringRest rest
    else if e = 'u' then
      match rest with
      | a :: b :: c :: d :: rest2 =>
        if isHexDigitChar a && isHexDigitChar b && isHexDigitChar c && isHexDigitChar d then
          jsonStringRest rest2
        else none
      | _ => none
    else none
  | c :: rest => if c.val < 32 then none else jsonStringRest rest

/-- Consume the integer part of a JSON number: `0`, or a nonzero digit
followed by any digits. -/
def jsonIntRest : List Char → Option (List Char)
  | '0' :: rest => some rest
  | c :: rest => if c.isDigit then some (skipDigits rest) else none
  | [] => none

/-- Consume an optional JSON fraction part. -/
def jsonFracRest (v : List Char) : Option (List Char) :=
  match v with
  | '.' :: c :: rest => if c.isDigit then some (skipDigits rest) else none
  | '.' :: [] => none
  | _ => some v

/-- Consume an optional JSON exponent part. -/
def jsonExpRest (v : List Char) : Option (List Char) :=
  match v with
  | e :: s :: rest =>
    if e = 'e' || e = 'E' then
      if s = '+' || s = '-' then
        match rest with
        | c :: rest2 => if c.isDigit then some (skipDigits rest2) else none
        | [] => none
      else if s.isDigit then some (skipDigits rest)
      else none
    else some (e :: s :: rest)
  | [e] => if e = 'e' || e = 'E' then none else some [e]
  | [] => some []

/-- Consume a JSON number: optional minus, integer part, optional
fraction, optional exponent. -/
def jsonNumberRest (v : List Char) : Option (List Char) :=
  let v2 := match v with
    | '-' :: rest => rest
    | _ => v
  (jsonIntRest v2).bind fun v3 => (jsonFracRest v3).bind jsonExpRest

/-- If `w` is a prefix of the value, drop it (used for the literals
`true`, `false`, `null`). -/
def jsonLit (w : String) (v : List Char) : Option (List Char) :=
  dropExact w v

mutual

/-- Consume one JSON value, leading whitespace allowed; returns the rest
of the input on success. -/
def jsonValue : Nat → List Char → Option (List Char)
  | 0, _ => none
  | fuel + 1, v =>
    match skipWs v with
    | '"' :: rest => jsonStringRest rest
    | '\x7b' :: rest => jsonObjectBody fuel rest
    | '[' :: rest => jsonArrayBody fuel rest
    | 't' :: rest => jsonLit "rue" rest
    | 'f' :: rest => jsonLit "alse" rest
    | 'n' :: rest => jsonLit "ull" rest
    | v2 => jsonNumberRest v2

/-- Consume the body of a JSON array, the opening bracket already
consumed: empty, or a value followed by the comma-separated tail. -/
def jsonArrayBody : Nat → List Char → Option (List Char)
  | 0, _ => none
  | fuel + 1, v =>
    match skipWs v with
    | ']' :: rest => some rest
    | v2 => (jsonValue fuel v2).bind fun v3 => jsonArrayTail fuel v3

/-- Consume the comma-separated tail of a JSON array up to the closing
bracket. -/
def jsonArrayTail : Nat → List Char → Option (List Char)
  | 0, _ => none
  | fuel + 1, v =>
    match skipWs v with
    | ']' :: rest => some rest
    | ',' :: rest => (jsonValue fuel rest).bind fun v2 => jsonArrayTail fuel v2
    | _ => none

/-- Consume the body of a JSON object, the opening brace already
consumed: empty, or a string key followed by the member tail. -/
def jsonObjectBody : Nat → List Char → Option (List Char)
  | 0, _ => none
  | fuel + 1, v =>
    match skipWs v with
    | '\x7d' :: rest => some rest
    | '"' :: rest => (jsonStringRest rest).bind fun v2 => jsonMemberRest fuel v2
    | _ => none

/-- After an object key: expect a colon, the member value, then the
object tail. -/
def jsonMemberRest : Nat → List Char → Option (List Char)
  | 0, _ => none
  | fuel + 1, v =>
    match skipWs v with
    | ':' :: rest => (jsonValue fuel rest).bind fun v2 => jsonObjectTail fuel v2
    | _ => none

/-- Consume the comma-separated tail of a JSON object up to the closing
brace. -/
def jsonObjectTail : Nat → List Char → Option (List Char)
  | 0, _ => none
  | fuel + 1, v =>
    match skipWs v with
    | '\x7d' :: rest => some rest
    | ',' :: rest =>
      match skipWs rest with
      | '"' :: rest2 => (jsonStringRest rest2).bind fun v2 => jsonMemberRest fuel v2
      | _ => none
    | _ => none

end

/-- Whether the whole character sequence is a single well-formed JSON
document (one JSON value, possibly surrounded by whitespace, spanning the
whole input). -/
def jsonDocumentValid (t : List Char) : Bool :=
  match jsonValue (2 * t.length + 4) t with
  | some rest => (skipWs rest).isEmpty
  | none => false

/-- Whether the (already trimmed) character sequence begins with `\x7b`
and ends with `\x7d`, or begins with `[` and ends with `]`. -/
def jsonBracketed (t : List Char) : Bool :=
  match t.head?, t.getLast? with
  | some f, some l => (f = '\x7b' && l = '\x7d') || (f = '[' && l = ']')
  | _, _ => false

/-- Modelled from the spec: `typing.IsJSON` — after trimming whitespace,
the value must begin with `\x7b` and end with `\x7d` or begin with `[`
and end with `]`, and be a well-formed JSON document. -/
def IsJSON (s : String) : Bool :=
  let t := trimChars s.toList
  jsonBracketed t && jsonDocumentValid t

/-! ## `ParseValue` (typing kernel)

Modelled from the spec: the implementation of `typing.ParseValue` is
absent from the sources (only its tests are). -/

/-- Modelled from the spec: `typing.Settings`; the caller-provided extra
timestamp formats ("and any caller-provided formats"). -/
structure Settings where
  additionalDateFormats : List String := []
deriving DecidableEq, Repr

/-- String dispatch of `ParseValue`: timestamp parsing (date-times, then
dates, then times), then JSON detection, then `String`. -/
def parseStringKind (settings : Settings) (s : String) : KindDetails :=
  if matchesAnyLayout (supportedDateTimeLayouts ++ settings.additionalDateFormats) s then
    .ETime .dateTime
  else if matchesAnyLayout supportedDateFormats s then
    .ETime .date
  else if matchesAnyLayout supportedTimeFormats s then
    .ETime .time
  else if IsJSON s then
    .Struct
  else
    .String

/-- Modelled from the spec: `typing.ParseValue`.  A `nil` value with no
optional-schema hint is `Invalid` and a `nil` value in a column known to
the schema is `String`; bools, integer-typed numerics, fractional
numerics, arrays and mappings classify structurally; strings first defer
to the optional schema verbatim, then dispatch through timestamp and
JSON detection. -/
def ParseValue (settings : Settings) (key : String)
    (optionalSchema : List (String × KindDetails)) (val : GoValue) : KindDetails :=
  match val with
  | .goNil => if (optionalSchema.lookup key).isSome then .String else .Invalid
  | .goBool _ => .Boolean
  | .goInt _ => .Integer
  | .goFloat => .Float
  | .goArray _ => .Array
  | .goMap _ => .Struct
  | .goStr s =>
    match optionalSchema.lookup key with
    | some kd => kd
    | none => parseStringKind settings s

/-! ## Column model and default values

Modelled from the spec: the implementations of `columns.Column`,
`Column.DefaultValue` and `shared.BackfillColumn` are absent from the
sources (only their tests are). -/

/-- An extended-time value (the warehouse-relevant components of
`ext.ExtendedTime`). -/
structure ExtendedTime where
  year : Nat
  month : Nat
  day : Nat
  hour : Nat
  minute : Nat
  second : Nat
deriving DecidableEq, Repr

/-- Zero-pad a number to two digits. -/
def pad2 (n : Nat) : String := if n < 10 then "0" ++ toString n else toString n

/-- Zero-pad a number to four digits. -/
def pad4 (n : Nat) : String :=
  if n < 10 then "000" ++ toString n
  else if n < 100 then "00" ++ toString n
  else if n < 1000 then "0" ++ toString n
  else toString n

/-- ISO-8601 date component (`2006-01-02`). -/
def formatDateISO (et : ExtendedTime) : String :=
  pad4 et.year ++ "-" ++ pad2 et.month ++ "-" ++ pad2 et.day

/-- ISO-8601 time component (`15:04:05`). -/
def formatTimeISO (et : ExtendedTime) : String :=
  pad2 et.hour ++ ":" ++ pad2 et.minute ++ ":" ++ pad2 et.second

/-- ISO-8601 date-time (`2006-01-02T15:04:05Z`). -/
def formatDateTimeISO (et : ExtendedTime) : String :=
  formatDateISO et ++ "T" ++ formatTimeISO et ++ "Z"

/-- A column default value (the shapes exercised by the pipeline:
strings, booleans and extended-time values). -/
inductive DefaultVal
  | str (s : String)
  | boolean (b : Bool)
  | extTime (et : ExtendedTime)
deriving DecidableEq, Repr

/-- `columns.Column`: raw source name, kind, optional default value,
backfill flag, toast flag. -/
structure Column where
  name : String
  kindDetails : KindDetails
  defaultValue : Option DefaultVal := none
  backfilled : Bool := false
  toastColumn : Bool := false
deriving DecidableEq, Repr

/-- `columns.DefaultValueArgs`: whether to escape, and for which
destination. -/
structure DefaultValueArgs where
  escape : Bool := false
  destKind : String
deriving DecidableEq, Repr

/-- How Go renders a default value when splicing it unescaped (`%v`). -/
def renderDefaultVal : DefaultVal → String
  | .str s => s
  | .boolean b => if b then "true" else "false"
  | .extTime et => formatDateTimeISO et

/-- Result of `Column.DefaultValue`: either the raw default value passed
through, or an escaped SQL literal. -/
inductive DefaultReturn
  | raw (v : DefaultVal)
  | rendered (s : String)
deriving DecidableEq, Repr

/-- Double any single quote over characters. -/
def doubleQuoteChars : List Char → List Char
  | [] => []
  | c :: rest =>
    if c = singleQuoteChar then c :: c :: doubleQuoteChars rest
    else c :: doubleQuoteChars rest

/-- Double any single quote, per the spec's "single-quoted and
escape-doubled" rule for string defaults. -/
def escapeSingleQuotes (s : String) : String := String.mk (doubleQuoteChars s.toList)

/-- Modelled from the spec: `Column.DefaultValue` is type-directed.  A nil
default returns nil; with no args or escaping disabled the raw value
passes through; a `String` kind is single-quoted and escape-doubled; a
`Struct` kind emits the dialect-specific JSON literal (`JSON '...'` for
BigQuery, `JSON_PARSE('...')` for Redshift, single-quoted for Snowflake);
an `ETime` kind formats its extended-time default per sub-kind using the
ISO-8601 components. -/
def Column.DefaultValue (col : Column) (args : Option DefaultValueArgs) : Option DefaultReturn :=
  match col.defaultValue with
  | none => none
  | some v =>
    match args with
    | none => some (.raw v)
    | some a =>
      if !a.escape then some (.raw v)
      else
        match col.kindDetails with
        | .String => some (.rendered ("'" ++ escapeSingleQuotes (renderDefaultVal v) ++ "'"))
        | .Struct =>
          if a.destKind = "bigquery" then
            some (.rendered ("JSON'" ++ renderDefaultVal v ++ "'"))
          else if a.destKind = "redshift" then
            some (.rendered ("JSON_PARSE('" ++ renderDefaultVal v ++ "')"))
          else if a.destKind = "snowflake" then
            some (.rendered ("'" ++ renderDefaultVal v ++ "'"))
          else
            some (.raw v)
        | .ETime t =>
          match v with
          | .extTime et =>
            match t with
            | .date => some (.rendered ("'" ++ formatDateISO et ++ "'"))
            | .time => some (.rendered ("'" ++ formatTimeISO et ++ "'"))
            | .dateTime => some (.rendered ("'" ++ formatDateTimeISO et ++ "'"))
          | _ => some (.raw v)
        | _ => some (.raw v)

/-! ## Snowflake backfill

Modelled from the spec: `shared.BackfillColumn` is absent from the
sources.  When a column has a default and is not yet backfilled it issues
`UPDATE t SET c = default WHERE c IS NULL` followed by
`COMMENT ON COLUMN ... IS '\x7b"backfilled": true\x7d'`; reserved column
names are escaped in the WHERE clause with Snowflake's upper-cased
double-quote style. -/

/-- Modelled from the spec: reserved keywords that trigger
destination-specific quoting ("`default`, `group`, `order`, etc."). -/
def reservedKeywords : List String := ["default", "group", "order"]

/-- Snowflake name escaping: reserved names become upper-cased and
double-quoted. -/
def escapeNameSnowflake (name : String) : String :=
  if reservedKeywords.contains (toLowerStr name) then
    "\"" ++ toUpperStr name ++ "\""
  else
    name

/-- The string a `DefaultValue` result contributes to SQL text. -/
def renderDefaultReturn : Option DefaultReturn → String
  | some (.rendered s) => s
  | some (.raw v) => renderDefaultVal v
  | none => ""

/-- Modelled from the spec: the statements `shared.BackfillColumn` executes
against Snowflake for a column on the given fully qualified table: none
when the column has no default or is already backfilled, otherwise the
backfill `UPDATE` followed by the `COMMENT ON COLUMN` marker. -/
def BackfillColumn (col : Column) (fqTableName : String) : List String :=
  match col.defaultValue with
  | none => []
  | some _ =>
    if col.backfilled then []
    else
      let defVal := renderDefaultReturn (col.DefaultValue (some ⟨true, "snowflake"⟩))
      ["UPDATE " ++ fqTableName ++ " SET " ++ col.name ++ " = " ++ defVal ++
         " WHERE " ++ escapeNameSnowflake col.name ++ " IS NULL;",
       "COMMENT ON COLUMN " ++ fqTableName ++ "." ++ col.name ++
         " IS '\x7b\"backfilled\": true\x7d';"]

/-! ## Snowflake temporary-table preparation

Modelled from the spec: the Snowflake `PrepareTemporaryTable`
implementation (`clients/snowflake/staging.go`) is absent from the
sources.  It optionally creates the stage table with the CSV stage file
format, then issues a `PUT` of the staged file and a `COPY INTO`. -/

/-- The Snowflake DDL type for a kind (spec type-mapping table, Snowflake
column). -/
def snowflakeDwhType : KindDetails → String
  | .Integer => "int"
  | .Float => "float"
  | .Boolean => "boolean"
  | .Struct => "variant"
  | .Array => "array"
  | _ => "string"

/-- Prefix the table part (the last dot-separated component) of a fully
qualified table name, used to address the table stage `@%table`. -/
def addPrefixToTableName (fqTableName pre : String) : String :=
  let parts := splitOnChar '.' fqTableName.toList
  String.mk (joinWithChar '.' (parts.dropLast ++ [pre.toList ++ parts.getLastD []]))

/-- Modelled from the spec: the statements Snowflake's
`PrepareTemporaryTable` executes, in order: optionally a
`CREATE TABLE IF NOT EXISTS` carrying the CSV stage file format, then a
`PUT` of the local staged file to the table stage with auto-compression,
then a `COPY INTO` selecting the staged columns positionally. -/
def PrepareTemporaryTable (cols : List Column) (tempTableName filePath : String)
    (createTempTable : Bool) : List String :=
  let colParts := cols.map (fun c => c.name ++ " " ++ snowflakeDwhType c.kindDetails)
  let createStmt :=
    "CREATE TABLE IF NOT EXISTS " ++ tempTableName ++ " (" ++
      joinSep "," colParts ++
      ") STAGE_COPY_OPTIONS = ( PURGE = TRUE ) STAGE_FILE_FORMAT = ( TYPE = 'csv' FIELD_DELIMITER= '\\t' FIELD_OPTIONALLY_ENCLOSED_BY='\"' NULL_IF='\\\\N' EMPTY_FIELD_AS_NULL=FALSE)"
  let resourceName := addPrefixToTableName tempTableName "%"
  let putStmt := "PUT file://" ++ filePath ++ " @" ++ resourceName ++ " AUTO_COMPRESS=TRUE"
  let copyStmt :=
    "COPY INTO " ++ tempTableName ++ " (" ++
      joinSep "," (cols.map (fun c => c.name)) ++
      ") FROM (SELECT " ++
      joinSep "," ((List.range cols.length).map (fun i => "$" ++ toString (i + 1))) ++
      " FROM @" ++ resourceName ++ ")"
  (if createTempTable then [createStmt] else []) ++ [putStmt, copyStmt]

/-! ## Theorems -/

/-- C1: For every Settings value and column name, `ParseValue` applied to a
nil value with no optional-schema hint returns `Invalid`, while applied to
a nil value for a column known to the schema it returns `String`; the
non-nil Go strings `""` and `"nil"` classify as `String`. -/
theorem parseValue_nil_dispatch :
    (∀ (settings : Settings) (key : String) (schema : List (String × KindDetails)),
      (schema.lookup key = none → ParseValue settings key schema .goNil = .Invalid) ∧
      (∀ kd, schema.lookup key = some kd → ParseValue settings key schema .goNil = .String)) ∧
    ParseValue ⟨[]⟩ "" [] (.goStr "") = .String ∧
    ParseValue ⟨[]⟩ "" [] (.goStr "nil") = .String := by
  refine ⟨fun settings key schema => ⟨fun h => ?_, fun kd h => ?_⟩, by decide, by decide⟩
  · simp [ParseValue, h]
  · simp [ParseValue, h]

/-- C1 witness: the nil dispatch evaluated at concrete schemas. -/
theorem parseValue_nil_dispatch_witness :
    ParseValue ⟨[]⟩ "" [] .goNil = .Invalid ∧
    ParseValue ⟨[]⟩ "created_at" [("created_at", .String)] .goNil = .String :=
  ⟨(parseValue_nil_dispatch.1 ⟨[]⟩ "" []).1 rfl,
   (parseValue_nil_dispatch.1 ⟨[]⟩ "created_at" [("created_at", .String)]).2 .String rfl⟩

/-- C2: `IsJSON` is true exactly when the trimmed input is bracketed
(`\x7b...\x7d` or `[...]`) and is a well-formed JSON document; in
particular it accepts `\x7b\x7d` and `[]` and rejects `\x7bnull\x7d`, an
unterminated array, the empty string and whitespace-only strings. -/
theorem isJSON_spec :
    (∀ s : String, IsJSON s = (jsonBracketed (trimChars s.toList) && jsonDocumentValid (trimChars s.toList))) ∧
    IsJSON "\x7b\x7d" = true ∧
    IsJSON "[]" = true ∧
    IsJSON "\x7bnull\x7d" = false ∧
    IsJSON "[1, 2, 3, 4" = false ∧
    IsJSON "" = false ∧
    IsJSON "   " = false :=
  ⟨fun _ => rfl, by decide, by decide, by decide, by decide, by decide, by decide⟩

/-- C3: a column name present in the optional schema makes `ParseValue`
return the schema's kind verbatim for every string value, bypassing
timestamp and JSON detection; an absent name goes through normal string
dispatch (so `"2023-01-01"` classifies as an `ETime` date). -/
theorem parseValue_optional_schema :
    (∀ (settings : Settings) (k : String) (schema : List (String × KindDetails))
        (kd : KindDetails) (v : String),
      schema.lookup k = some kd → ParseValue settings k schema (.goStr v) = kd) ∧
    ParseValue ⟨[]⟩ "updated_at" [("created_at", .String)] (.goStr "2023-01-01") = .ETime .date ∧
    ParseValue ⟨[]⟩ "created_at" [("created_at", .String)] (.goStr "2023-01-01") = .String := by
  refine ⟨fun settings k schema kd v h => ?_, by decide, by decide⟩
  simp [ParseValue, h]

/-- C3 witness: the verbatim schema return evaluated at a concrete schema
and a value that would otherwise classify as a timestamp. -/
theorem parseValue_optional_schema_witness :
    ParseValue ⟨[]⟩ "created_at" [("created_at", .Boolean)] (.goStr "2023-01-01") = .Boolean :=
  parseValue_optional_schema.1 ⟨[]⟩ "created_at" [("created_at", .Boolean)] .Boolean "2023-01-01" rfl

/-- C4: every string matching one of the reference-time layouts classifies
as an `ETime` date-time under empty settings and no optional schema; each
of the listed reference-format values yields sub-kind `DateTime`, and the
ISO-8601 time with numeric zone `"00:18:11.13116+00"` yields sub-kind
`Time`. -/
theorem parseValue_timestamp_formats :
    (∀ v : String, matchesAnyLayout supportedDateTimeLayouts v = true →
      ParseValue ⟨[]⟩ "" [] (.goStr v) = .ETime .dateTime) ∧
    ParseValue ⟨[]⟩ "" [] (.goStr "01/02 03:04:05PM '06 -0700") = .ETime .dateTime ∧
    ParseValue ⟨[]⟩ "" [] (.goStr "Mon Jan 2 15:04:05 2006") = .ETime .dateTime ∧
    ParseValue ⟨[]⟩ "" [] (.goStr "Mon Jan 2 15:04:05 MST 2006") = .ETime .dateTime ∧
    ParseValue ⟨[]⟩ "" [] (.goStr "Mon Jan 02 15:04:05 -0700 2006") = .ETime .dateTime ∧
    ParseValue ⟨[]⟩ "" [] (.goStr "02 Jan 06 15:04 MST") = .ETime .dateTime ∧
    ParseValue ⟨[]⟩ "" [] (.goStr "02 Jan 06 15:04 -0700") = .ETime .dateTime ∧
    ParseValue ⟨[]⟩ "" [] (.goStr "Monday, 02-Jan-06 15:04:05 MST") = .ETime .dateTime ∧
    ParseValue ⟨[]⟩ "" [] (.goStr "Mon, 02 Jan 2006 15:04:05 MST") = .ETime .dateTime ∧
    ParseValue ⟨[]⟩ "" [] (.goStr "Mon, 02 Jan 2006 15:04:05 -0700") = .ETime .dateTime ∧
    ParseValue ⟨[]⟩ "" [] (.goStr "2019-10-12T14:20:50.52+07:00") = .ETime .dateTime ∧
    ParseValue ⟨[]⟩ "" [] (.goStr "00:18:11.13116+00") = .ETime .time := by
  refine ⟨fun v h => ?_, by decide, by decide, by decide, by decide, by decide, by decide,
    by decide, by decide, by decide, by decide, by decide⟩
  show parseStringKind ⟨[]⟩ v = .ETime .dateTime
  simp [parseStringKind, h]

/-- C4 witness: the date-time classification applied at a concrete
reference-format value. -/
theorem parseValue_timestamp_formats_witness :
    ParseValue ⟨[]⟩ "" [] (.goStr "2000-12-31T23:59:59Z") = .ETime .dateTime :=
  parseValue_timestamp_formats.1 "2000-12-31T23:59:59Z" (by decide)

/-- C5: `Column.DefaultValue` with escaping enabled is type-directed for
every destination: a nil default returns nil, a `String` default is
single-quoted (escape-doubled), a `Struct` default emits the
dialect-specific JSON literal for BigQuery, Redshift and Snowflake, and
an `ETime` default for the birthday `2022-09-06 03:19:24.942Z` formats
per sub-kind. -/
theorem column_default_value_type_directed :
    (∀ (dest : String) (c : Column), c.defaultValue = none →
      c.DefaultValue (some ⟨true, dest⟩) = none) ∧
    (∀ (dest nm s : String) (b t : Bool),
      Column.DefaultValue ⟨nm, .String, some (.str s), b, t⟩ (some ⟨true, dest⟩) =
        some (.rendered ("'" ++ escapeSingleQuotes s ++ "'"))) ∧
    Column.DefaultValue ⟨"c", .Struct, some (.str "\x7b\x7d"), false, false⟩
        (some ⟨true, "bigquery"⟩) = some (.rendered "JSON'\x7b\x7d'") ∧
    Column.DefaultValue ⟨"c", .Struct, some (.str "\x7b\x7d"), false, false⟩
        (some ⟨true, "redshift"⟩) = some (.rendered "JSON_PARSE('\x7b\x7d')") ∧
    Column.DefaultValue ⟨"c", .Struct, some (.str "\x7b\x7d"), false, false⟩
        (some ⟨true, "snowflake"⟩) = some (.rendered "'\x7b\x7d'") ∧
    (∀ dest : String,
      Column.DefaultValue ⟨"birthday", .ETime .date, some (.extTime ⟨2022, 9, 6, 3, 19, 24⟩), false, false⟩
        (some ⟨true, dest⟩) = some (.rendered "'2022-09-06'")) ∧
    (∀ dest : String,
      Column.DefaultValue ⟨"birthday", .ETime .time, some (.extTime ⟨2022, 9, 6, 3, 19, 24⟩), false, false⟩
        (some ⟨true, dest⟩) = some (.rendered "'03:19:24'")) ∧
    (∀ dest : String,
      Column.DefaultValue ⟨"birthday", .ETime .dateTime, some (.extTime ⟨2022, 9, 6, 3, 19, 24⟩), false, false⟩
        (some ⟨true, dest⟩) = some (.rendered "'2022-09-06T03:19:24Z'")) := by
  refine ⟨fun dest c h => ?_, fun dest nm s b t => rfl, by decide, by decide, by decide,
    fun dest => rfl, fun dest => rfl, fun dest => rfl⟩
  simp [Column.DefaultValue, h]

/-- C5 witness: the nil-default case evaluated at a concrete column. -/
theorem column_default_value_witness :
    Column.DefaultValue ⟨"foo", .String, none, false, false⟩ (some ⟨true, "snowflake"⟩) = none :=
  column_default_value_type_directed.1 "snowflake" ⟨"foo", .String, none, false, false⟩ rfl

/-- C6: for every column with a default value that is not yet backfilled,
`BackfillColumn` executes exactly the backfill `UPDATE` followed by the
`COMMENT ON COLUMN` marker, escaping the reserved name `default` as
`"DEFAULT"` in the WHERE clause; a column with no default or already
backfilled executes no statements. -/
theorem backfillColumn_statements :
    (∀ (c : Column) (fq : String) (v : DefaultVal),
      c.defaultValue = some v → c.backfilled = false →
      BackfillColumn c fq =
        ["UPDATE " ++ fq ++ " SET " ++ c.name ++ " = " ++
           renderDefaultReturn (c.DefaultValue (some ⟨true, "snowflake"⟩)) ++
           " WHERE " ++ escapeNameSnowflake c.name ++ " IS NULL;",
         "COMMENT ON COLUMN " ++ fq ++ "." ++ c.name ++ " IS '\x7b\"backfilled\": true\x7d';"]) ∧
    (∀ (c : Column) (fq : String), c.defaultValue = none → BackfillColumn c fq = []) ∧
    (∀ (c : Column) (fq : String), c.backfilled = true → BackfillColumn c fq = []) ∧
    BackfillColumn ⟨"foo", .Boolean, some (.boolean true), false, false⟩ "db.public.tableName" =
      ["UPDATE db.public.tableName SET foo = true WHERE foo IS NULL;",
       "COMMENT ON COLUMN db.public.tableName.foo IS '\x7b\"backfilled\": true\x7d';"] ∧
    BackfillColumn ⟨"default", .Boolean, some (.boolean true), false, false⟩ "db.public.tableName" =
      ["UPDATE db.public.tableName SET default = true WHERE \"DEFAULT\" IS NULL;",
       "COMMENT ON COLUMN db.public.tableName.default IS '\x7b\"backfilled\": true\x7d';"] := by
  refine ⟨fun c fq v h hb => ?_, fun c fq h => ?_, fun c fq hb => ?_, by decide, by decide⟩
  · simp [BackfillColumn, h, hb]
  · simp [BackfillColumn, h]
  · cases h : c.defaultValue <;> simp [BackfillColumn, h, hb]

/-- C6 witness: the no-statement cases evaluated at concrete columns. -/
theorem backfillColumn_witness :
    BackfillColumn ⟨"foo", .Boolean, some (.boolean true), true, false⟩ "db.public.tableName" = [] ∧
    BackfillColumn ⟨"foo", .Invalid, none, false, false⟩ "db.public.tableName" = [] :=
  ⟨backfillColumn_statements.2.2.1 ⟨"foo", .Boolean, some (.boolean true), true, false⟩
     "db.public.tableName" rfl,
   backfillColumn_statements.2.1 ⟨"foo", .Invalid, none, false, false⟩ "db.public.tableName" rfl⟩

/-- The in-memory column set of the temp-table preparation scenario:
`user_id`, `first_name`, `last_name`, `dusty`, all strings. -/
def stagingColumns : List Column :=
  [⟨"user_id", .String, none, false, false⟩,
   ⟨"first_name", .String, none, false, false⟩,
   ⟨"last_name", .String, none, false, false⟩,
   ⟨"dusty", .String, none, false, false⟩]

/-- Decidable equality for `Except`, used to evaluate `tableRelName`
results on concrete inputs. -/
instance {ε α : Type} [DecidableEq ε] [DecidableEq α] : DecidableEq (Except ε α)
  | .ok x, .ok y =>
    if h : x = y then .isTrue (congrArg Except.ok h)
    else .isFalse (fun he => h (Except.ok.inj he))
  | .ok _, .error _ => .isFalse (fun he => Except.noConfusion he)
  | .error _, .ok _ => .isFalse (fun he => Except.noConfusion he)
  | .error x, .error y =>
    if h : x = y then .isTrue (congrArg Except.error h)
    else .isFalse (fun he => h (Except.error.inj he))

set_option maxRecDepth 8192 in
/-- C7: Snowflake `PrepareTemporaryTable` over the four staging columns
executes exactly three statements in order — the `CREATE TABLE IF NOT
EXISTS` with the CSV stage file format, the `PUT` to the table stage with
auto-compression, and the positional `COPY INTO` — and omits the `CREATE`
when `createTempTable` is false. -/
theorem prepareTemporaryTable_statements :
    PrepareTemporaryTable stagingColumns "temp__artie_tbl" "/tmp/temp__artie_tbl.csv" true =
      ["CREATE TABLE IF NOT EXISTS temp__artie_tbl (user_id string,first_name string,last_name string,dusty string) STAGE_COPY_OPTIONS = ( PURGE = TRUE ) STAGE_FILE_FORMAT = ( TYPE = 'csv' FIELD_DELIMITER= '\\t' FIELD_OPTIONALLY_ENCLOSED_BY='\"' NULL_IF='\\\\N' EMPTY_FIELD_AS_NULL=FALSE)",
       "PUT file:///tmp/temp__artie_tbl.csv @%temp__artie_tbl AUTO_COMPRESS=TRUE",
       "COPY INTO temp__artie_tbl (user_id,first_name,last_name,dusty) FROM (SELECT $1,$2,$3,$4 FROM @%temp__artie_tbl)"] ∧
    PrepareTemporaryTable stagingColumns "temp__artie_tbl" "/tmp/temp__artie_tbl.csv" false =
      ["PUT file:///tmp/temp__artie_tbl.csv @%temp__artie_tbl AUTO_COMPRESS=TRUE",
       "COPY INTO temp__artie_tbl (user_id,first_name,last_name,dusty) FROM (SELECT $1,$2,$3,$4 FROM @%temp__artie_tbl)"] := by
  exact ⟨by decide, by decide⟩

/-- C8: `tableRelName` drops the first two dot-separated components when
the fully qualified name has at least three, and errors with an
"invalid fully qualified name" message when it has fewer. -/
theorem tableRelName_spec :
    (∀ fq : String, 3 ≤ (splitOnChar '.' fq.toList).length →
      tableRelName fq = .ok (String.mk (joinWithChar '.' ((splitOnChar '.' fq.toList).drop 2)))) ∧
    (∀ fq : String, (splitOnChar '.' fq.toList).length < 3 →
      tableRelName fq = .error ("invalid fully qualified name: " ++ fq)) ∧
    tableRelName "project.dataset.table" = .ok "table" ∧
    tableRelName "project.dataset.table.table" = .ok "table.table" ∧
    tableRelName "project.dataset" = .error "invalid fully qualified name: project.dataset" ∧
    tableRelName "project" = .error "invalid fully qualified name: project" ∧
    ("invalid fully qualified name".toList.isPrefixOf
      "invalid fully qualified name: project.dataset".toList) = true := by
  refine ⟨fun fq h => ?_, fun fq h => ?_, by decide, by decide, by decide, by decide, by decide⟩
  · rw [tableRelName, if_neg (by omega)]
  · rw [tableRelName, if_pos h]

/-- C8 witness: the relative-name computation applied at concrete fully
qualified names on both sides of the component bound. -/
theorem tableRelName_witness :
    tableRelName "a.b.c" =
      .ok (String.mk (joinWithChar '.' ((splitOnChar '.' "a.b.c".toList).drop 2))) ∧
    tableRelName "a.b" = .error ("invalid fully qualified name: " ++ "a.b") :=
  ⟨tableRelName_spec.1 "a.b.c" (by decide), tableRelName_spec.2.1 "a.b" (by decide)⟩

/-- Characterization of the per-block Kafka checks. -/
theorem kafkaChecks_none_iff (k : KafkaCfg) :
    kafkaChecks k = none ↔
      (k.topicConfigs ≠ [] ∧ (∀ tc ∈ k.topicConfigs, tc.valid = true) ∧
       k.groupID ≠ "" ∧ k.bootstrapServer ≠ "") := by
  unfold kafkaChecks
  split_ifs with e1 e2 e3
  · refine iff_of_false (by simp) ?_
    rintro ⟨h1, -⟩
    exact h1 (List.length_eq_zero.mp e1)
  · refine iff_of_false (by simp) ?_
    rintro ⟨-, h2, -⟩
    obtain ⟨tc, htc, hbad⟩ := List.any_eq_true.mp e2
    rw [Bool.not_eq_true'] at hbad
    exact absurd (h2 tc htc) (by rw [hbad]; exact Bool.false_ne_true)
  · refine iff_of_false (by simp) ?_
    rintro ⟨-, -, h3, h4⟩
    simp only [anyEmpty, List.any_eq_true, decide_eq_true_eq] at e3
    obtain ⟨s, hs, hse⟩ := e3
    subst hse
    simp only [List.mem_cons, List.not_mem_nil, or_false] at hs
    rcases hs with h | h
    · exact h3 h.symm
    · exact h4 h.symm
  · refine iff_of_true rfl ?_
    refine ⟨fun hnil => e1 (by rw [hnil]; rfl), ?_, ?_, ?_⟩
    · intro tc htc
      cases hbv : tc.valid with
      | false => exact absurd (List.any_eq_true.mpr ⟨tc, htc, by simp [hbv]⟩) e2
      | true => rfl
    · intro hg
      exact e3 (by simp [anyEmpty, hg])
    · intro hb
      exact e3 (by simp [anyEmpty, hb])

/-- Characterization of the per-block Pub/Sub checks. -/
theorem pubsubChecks_none_iff (p : PubsubCfg) :
    pubsubChecks p = none ↔
      (p.topicConfigs ≠ [] ∧ (∀ tc ∈ p.topicConfigs, tc.valid = true) ∧
       p.projectID ≠ "" ∧ p.pathToCredentials ≠ "") := by
  unfold pubsubChecks
  split_ifs with e1 e2 e3
  · refine iff_of_false (by simp) ?_
    rintro ⟨h1, -⟩
    exact h1 (List.length_eq_zero.mp e1)
  · refine iff_of_false (by simp) ?_
    rintro ⟨-, h2, -⟩
    obtain ⟨tc, htc, hbad⟩ := List.any_eq_true.mp e2
    rw [Bool.not_eq_true'] at hbad
    exact absurd (h2 tc htc) (by rw [hbad]; exact Bool.false_ne_true)
  · refine iff_of_false (by simp) ?_
    rintro ⟨-, -, h3, h4⟩
    simp only [anyEmpty, List.any_eq_true, decide_eq_true_eq] at e3
    obtain ⟨s, hs, hse⟩ := e3
    subst hse
    simp only [List.mem_cons, List.not_mem_nil, or_false] at hs
    rcases hs with h | h
    · exact h3 h.symm
    · exact h4 h.symm
  · refine iff_of_true rfl ?_
    refine ⟨fun hnil => e1 (by rw [hnil]; rfl), ?_, ?_, ?_⟩
    · intro tc htc
      cases hbv : tc.valid with
      | false => exact absurd (List.any_eq_true.mpr ⟨tc, htc, by simp [hbv]⟩) e2
      | true => rfl
    · intro hg
      exact e3 (by simp [anyEmpty, hg])
    · intro hb
      exact e3 (by simp [anyEmpty, hb])

/-- Characterization of the per-block Redshift field checks. -/
theorem redshiftChecks_none_iff (r : RedshiftCfg) :
    redshiftChecks r = none ↔
      (r.host ≠ "" ∧ r.database ≠ "" ∧ r.username ≠ "" ∧ r.password ≠ "" ∧
       r.bucket ≠ "" ∧ r.credentialsClause ≠ "" ∧ 0 < r.port) := by
  unfold redshiftChecks
  split_ifs with e1 e2
  · refine iff_of_false (by simp) ?_
    rintro ⟨hh, hd, hu, hp, hb, hc, -⟩
    simp only [anyEmpty, List.any_eq_true, decide_eq_true_eq] at e1
    obtain ⟨s, hs, hse⟩ := e1
    subst hse
    simp only [List.mem_cons, List.not_mem_nil, or_false] at hs
    rcases hs with h | h | h | h | h | h
    · exact hh h.symm
    · exact hd h.symm
    · exact hu h.symm
    · exact hp h.symm
    · exact hb h.symm
    · exact hc h.symm
  · refine iff_of_false (by simp) ?_
    rintro ⟨-, -, -, -, -, -, hport⟩
    omega
  · refine iff_of_true rfl ?_
    refine ⟨?_, ?_, ?_, ?_, ?_, ?_, by omega⟩ <;>
      · intro he
        exact e1 (by simp [anyEmpty, he])

/-- Characterization of the queue checks: for the Kafka queue a non-nil
block with a non-empty, all-valid topic-config list and non-empty group
id and bootstrap server; analogously for Pub/Sub; no check otherwise. -/
theorem validateQueue_none_iff (c : Config) :
    c.validateQueue = none ↔
      ((c.queue = queueKafka →
         ∃ k, c.kafka = some k ∧ k.topicConfigs ≠ [] ∧
           (∀ tc ∈ k.topicConfigs, tc.valid = true) ∧
           k.groupID ≠ "" ∧ k.bootstrapServer ≠ "") ∧
       (c.queue = queuePubSub →
         ∃ p, c.pubsub = some p ∧ p.topicConfigs ≠ [] ∧
           (∀ tc ∈ p.topicConfigs, tc.valid = true) ∧
           p.projectID ≠ "" ∧ p.pathToCredentials ≠ "")) := by
  have hkp : queueKafka ≠ queuePubSub := by decide
  unfold Config.validateQueue
  by_cases hk : c.queue = queueKafka
  · rw [if_pos hk]
    cases hkc : c.kafka with
    | none =>
      refine iff_of_false (by simp) ?_
      rintro ⟨f, -⟩
      obtain ⟨k, hk2, -⟩ := f hk
      exact Option.noConfusion hk2
    | some k =>
      constructor
      · intro h
        exact ⟨fun _ => ⟨k, rfl, (kafkaChecks_none_iff k).mp h⟩,
               fun hp' => absurd (hk.symm.trans hp') hkp⟩
      · rintro ⟨f, -⟩
        obtain ⟨k', hk2, hrest⟩ := f hk
        obtain rfl : k = k' := Option.some.inj hk2
        exact (kafkaChecks_none_iff k).mpr hrest
  · rw [if_neg hk]
    by_cases hp : c.queue = queuePubSub
    · rw [if_pos hp]
      cases hpc : c.pubsub with
      | none =>
        refine iff_of_false (by simp) ?_
        rintro ⟨-, f⟩
        obtain ⟨p, hp2, -⟩ := f hp
        exact Option.noConfusion hp2
      | some p =>
        constructor
        · intro h
          exact ⟨fun hk' => absurd (hp.symm.trans hk') hkp.symm,
                 fun _ => ⟨p, rfl, (pubsubChecks_none_iff p).mp h⟩⟩
        · rintro ⟨-, f⟩
          obtain ⟨p', hp2, hrest⟩ := f hp
          obtain rfl : p = p' := Option.some.inj hp2
          exact (pubsubChecks_none_iff p).mpr hrest
    · rw [if_neg hp]
      exact iff_of_true rfl ⟨fun hk' => absurd hk' hk, fun hp' => absurd hp' hp⟩

/-- Characterization of the Redshift block checks: the output must be
Redshift and the block must be present with non-empty settings and a
positive port. -/
theorem validateRedshift_none_iff (c : Config) :
    c.ValidateRedshift = none ↔
      (c.output = "redshift" ∧ ∃ r, c.redshift = some r ∧
        r.host ≠ "" ∧ r.database ≠ "" ∧ r.username ≠ "" ∧ r.password ≠ "" ∧
        r.bucket ≠ "" ∧ r.credentialsClause ≠ "" ∧ 0 < r.port) := by
  unfold Config.ValidateRedshift
  split_ifs with h1
  · refine iff_of_false (by simp) ?_
    rintro ⟨h2, -⟩
    exact h1 h2
  · rw [not_not] at h1
    cases hr : c.redshift with
    | none =>
      refine iff_of_false (by simp) ?_
      rintro ⟨-, r, hr2, -⟩
      exact Option.noConfusion hr2
    | some r =>
      constructor
      · intro h
        exact ⟨h1, r, rfl, (redshiftChecks_none_iff r).mp h⟩
      · rintro ⟨-, r', hr2, hrest⟩
        obtain rfl : r = r' := Option.some.inj hr2
        exact (redshiftChecks_none_iff r).mpr hrest


/-- Characterization of `Config.Validate`: it accepts exactly the configs
with positive flush size, flush interval within the closed range, buffer
rows whose wrapping signed reinterpretation is at least the lower bound,
a valid destination, a valid Redshift block when the output is Redshift,
and valid queue blocks. -/
theorem validate_none_iff (c : Config) :
    Config.Validate c = none ↔
      (0 < c.flushSizeKb ∧
       flushIntervalSecondsStart ≤ c.flushIntervalSeconds ∧
       c.flushIntervalSeconds ≤ flushIntervalSecondsEnd ∧
       bufferPoolSizeStart ≤ uint64ToInt c.bufferRows ∧
       IsValidDestination c.output = true ∧
       (c.output = "redshift" → c.ValidateRedshift = none) ∧
       c.validateQueue = none) := by
  unfold Config.Validate
  split_ifs with h1 h2 h3 h4 h5
  · refine iff_of_false (by simp) ?_
    rintro ⟨a1, -⟩
    omega
  · refine iff_of_false (by simp) ?_
    rintro ⟨-, a2, a3, -⟩
    rw [Bool.not_eq_true'] at h2
    simp only [BetweenEq, Bool.and_eq_false_iff, decide_eq_false_iff_not] at h2
    rcases h2 with h2 | h2 <;> omega
  · refine iff_of_false (by simp) ?_
    rintro ⟨-, -, -, a4, -⟩
    omega
  · refine iff_of_false (by simp) ?_
    rintro ⟨-, -, -, -, a5, -⟩
    rw [Bool.not_eq_true'] at h4
    rw [a5] at h4
    exact Bool.noConfusion h4
  · have hBE : BetweenEq flushIntervalSecondsStart flushIntervalSecondsEnd c.flushIntervalSeconds = true := by
      revert h2
      cases hb : BetweenEq flushIntervalSecondsStart flushIntervalSecondsEnd c.flushIntervalSeconds <;> simp
    have hVD : IsValidDestination c.output = true := by
      revert h4
      cases hv : IsValidDestination c.output <;> simp
    simp only [BetweenEq, Bool.and_eq_true, decide_eq_true_eq] at hBE
    cases hR : c.ValidateRedshift with
    | some e =>
      refine iff_of_false (by simp) ?_
      rintro ⟨-, -, -, -, -, a6, -⟩
      exact Option.noConfusion (a6 h5)
    | none =>
      constructor
      · intro h
        exact ⟨by omega, hBE.1, hBE.2, by omega, hVD, fun _ => rfl, h⟩
      · rintro ⟨-, -, -, -, -, -, a7⟩
        exact a7
  · have hBE : BetweenEq flushIntervalSecondsStart flushIntervalSecondsEnd c.flushIntervalSeconds = true := by
      revert h2
      cases hb : BetweenEq flushIntervalSecondsStart flushIntervalSecondsEnd c.flushIntervalSeconds <;> simp
    have hVD : IsValidDestination c.output = true := by
      revert h4
      cases hv : IsValidDestination c.output <;> simp
    simp only [BetweenEq, Bool.and_eq_true, decide_eq_true_eq] at hBE
    constructor
    · intro h
      exact ⟨by omega, hBE.1, hBE.2, by omega, hVD, fun hred => absurd hred h5, h⟩
    · rintro ⟨-, -, -, -, -, -, a7⟩
      exact a7

/-- A configuration with `bufferRows` above the documented upper bound of
30000 but valid in every other respect. -/
def overBufferConfig : Config :=
  ⟨"snowflake", "kafka", 10, 1024, 30001, none,
    some ⟨"localhost:9092", "transfer-group", "", "", [⟨true⟩]⟩, none⟩

/-- A configuration inside every claimed limit whose Kafka block carries
one valid and one invalid topic config. -/
def mixedTopicsConfig : Config :=
  ⟨"snowflake", "kafka", 10, 1024, 5000, none,
    some ⟨"localhost:9092", "transfer-group", "", "", [⟨true⟩, ⟨false⟩]⟩, none⟩

/-- A configuration inside every claimed limit whose output is the valid
destination `redshift` but whose Redshift block is nil. -/
def redshiftNilConfig : Config :=
  ⟨"redshift", "kafka", 10, 1024, 5000, none,
    some ⟨"localhost:9092", "transfer-group", "", "", [⟨true⟩]⟩, none⟩

/-- C9 counterexample: `Validate` does not error exactly when one of the
claimed limits is violated.  First, it accepts a configuration whose
`bufferRows` (30001) exceeds the claimed 5–30000 range.  Second, it
rejects a configuration inside every claimed limit whose queue carries at
least one valid topic config, because one other topic config is invalid.
Third, it rejects a configuration inside every claimed limit with the
valid destination `redshift`, because its Redshift block is nil. -/
theorem validate_no_buffer_upper_bound :
    (Config.Validate overBufferConfig = none ∧
      30000 < overBufferConfig.bufferRows) ∧
    (Config.Validate mixedTopicsConfig = some "config is invalid, topic config is invalid" ∧
      mixedTopicsConfig.kafka.map (fun k => k.topicConfigs.any fun tc => tc.valid) = some true) ∧
    (Config.Validate redshiftNilConfig = some "redshift cfg is nil" ∧
      IsValidDestination redshiftNilConfig.output = true) := by
  exact ⟨⟨by decide, by decide⟩, ⟨by decide, by decide⟩, ⟨by decide, by decide⟩⟩

/-- A configuration identical to `validConfig` except that `bufferRows`
is `2 ^ 63`, whose signed reinterpretation wraps negative. -/
def wrapBufferConfig : Config :=
  ⟨"snowflake", "kafka", 10, 1024, 2 ^ 63, none,
    some ⟨"localhost:9092", "transfer-group", "", "", [⟨true⟩]⟩, none⟩

/-- C9 (amended): `Config.Validate` errors exactly when a limit is
violated — `flushSizeKb` must be strictly positive,
`flushIntervalSeconds` must lie in the closed range 5 to 21600,
`bufferRows` must be at least 5 after Go's wrapping uint-to-int
reinterpretation (so no upper bound below `2 ^ 63` is enforced, while
`2 ^ 63` and above wrap negative and are rejected), the output
destination must be valid, the Redshift block must validate when the
output is Redshift, and the configured queue must carry a non-empty list
of topic configs, all valid, with non-empty connection settings. -/
theorem validate_corrected :
    (∀ c : Config, Config.Validate c = none ↔
      (0 < c.flushSizeKb ∧
       flushIntervalSecondsStart ≤ c.flushIntervalSeconds ∧
       c.flushIntervalSeconds ≤ flushIntervalSecondsEnd ∧
       bufferPoolSizeStart ≤ uint64ToInt c.bufferRows ∧
       IsValidDestination c.output = true ∧
       (c.output = "redshift" → c.ValidateRedshift = none) ∧
       c.validateQueue = none)) ∧
    (∀ c : Config, c.validateQueue = none ↔
      ((c.queue = queueKafka →
         ∃ k, c.kafka = some k ∧ k.topicConfigs ≠ [] ∧
           (∀ tc ∈ k.topicConfigs, tc.valid = true) ∧
           k.groupID ≠ "" ∧ k.bootstrapServer ≠ "") ∧
       (c.queue = queuePubSub →
         ∃ p, c.pubsub = some p ∧ p.topicConfigs ≠ [] ∧
           (∀ tc ∈ p.topicConfigs, tc.valid = true) ∧
           p.projectID ≠ "" ∧ p.pathToCredentials ≠ ""))) ∧
    (∀ c : Config, c.ValidateRedshift = none ↔
      (c.output = "redshift" ∧ ∃ r, c.redshift = some r ∧
        r.host ≠ "" ∧ r.database ≠ "" ∧ r.username ≠ "" ∧ r.password ≠ "" ∧
        r.bucket ≠ "" ∧ r.credentialsClause ≠ "" ∧ 0 < r.port)) ∧
    Config.Validate wrapBufferConfig = some "config is invalid, buffer pool is too small" :=
  ⟨validate_none_iff, validateQueue_none_iff, validateRedshift_none_iff, by decide⟩

/-- A configuration inside all the validated ranges with a valid
destination and queue block. -/
def validConfig : Config :=
  ⟨"snowflake", "kafka", 10, 1024, 5000, none,
    some ⟨"localhost:9092", "transfer-group", "", "", [⟨true⟩]⟩, none⟩

/-- C9 witness: the characterization applied to a concrete accepted
configuration. -/
theorem validate_corrected_witness :
    0 < validConfig.flushSizeKb ∧ validConfig.validateQueue = none :=
  ⟨((validate_corrected.1 validConfig).mp (by decide)).1,
   ((validate_corrected.1 validConfig).mp (by decide)).2.2.2.2.2.2⟩

/-- C10: `readFileToConfig` fills zero-valued fields with defaults —
queue `kafka`, flush interval 10 seconds, 30000 buffer rows, 25600 KB
flush size — and each default lies inside the validated range, so a
config omitting all four passes those range checks of `Validate`. -/
theorem readFileToConfig_defaults :
    ∀ c : Config, c.queue = "" → c.flushIntervalSeconds = 0 → c.bufferRows = 0 →
      c.flushSizeKb = 0 →
      (readFileToConfigDefaults c).queue = queueKafka ∧
      (readFileToConfigDefaults c).flushIntervalSeconds = 10 ∧
      (readFileToConfigDefaults c).bufferRows = 30000 ∧
      (readFileToConfigDefaults c).flushSizeKb = 25600 ∧
      0 < (readFileToConfigDefaults c).flushSizeKb ∧
      BetweenEq flushIntervalSecondsStart flushIntervalSecondsEnd
        (readFileToConfigDefaults c).flushIntervalSeconds = true ∧
      bufferPoolSizeStart ≤ ((readFileToConfigDefaults c).bufferRows : Int) ∧
      ¬(bufferPoolSizeStart > uint64ToInt (readFileToConfigDefaults c).bufferRows) := by
  intro c hq hi hb hf
  simp [readFileToConfigDefaults, hq, hi, hb, hf, defaultFlushTimeSeconds, defaultFlushSizeKb,
    bufferPoolSizeEnd, queueKafka, BetweenEq, flushIntervalSecondsStart, flushIntervalSecondsEnd,
    bufferPoolSizeStart, uint64ToInt]

/-- C10 witness: the defaults applied to a concrete config that omits all
four fields. -/
theorem readFileToConfig_defaults_witness :
    (readFileToConfigDefaults ⟨"snowflake", "", 0, 0, 0, none, none, none⟩).queue = queueKafka ∧
    (readFileToConfigDefaults ⟨"snowflake", "", 0, 0, 0, none, none, none⟩).bufferRows = 30000 :=
  ⟨(readFileToConfig_defaults ⟨"snowflake", "", 0, 0, 0, none, none, none⟩ rfl rfl rfl rfl).1,
   (readFileToConfig_defaults ⟨"snowflake", "", 0, 0, 0, none, none, none⟩ rfl rfl rfl rfl).2.2.1⟩

end ArtieTransfer
